import Mathlib

set_option maxRecDepth 4000

/-!
Verification of the contract-comparison pipeline: a shallow embedding of the
data models (`src/models.py`), the guardrail validator (`src/guardrails.py`),
the extraction agent's alignment self-check (`src/agents/extraction_agent.py`)
and the rule-based evaluator (`src/evaluator.py`), together with theorems
settling the behavioural claims about them.

Strings are modelled by Lean `String` (a wrapper around `List Char`); Python
`str.strip` / `str.lower` / `str.split` and substring tests are embedded as
explicit character-list functions below.  Python floats are modelled as exact
rationals.  Pydantic construction, which can raise a validation error, is
modelled as a function into `Except String`.
-/

/-! ## Python string primitives -/

/-- Python `str.strip()` on a character list: drop whitespace from both ends. -/
def stripChars (l : List Char) : List Char :=
  ((l.dropWhile Char.isWhitespace).reverse.dropWhile Char.isWhitespace).reverse

/-- Python `str.strip()`. -/
def pyStrip (s : String) : String :=
  String.mk (stripChars s.data)

/-- Python `str.lower()` (ASCII case folding, which covers the repository's data). -/
def pyLower (s : String) : String :=
  String.mk (s.data.map Char.toLower)

/-- Split a character list at every character satisfying `p`, keeping empty
pieces (the semantics of `re.split` on a single-character class; callers that
model splitting on runs filter out the empty pieces afterwards). -/
def splitChars (p : Char → Bool) : List Char → List (List Char)
  | [] => [[]]
  | c :: cs =>
    let r := splitChars p cs
    if p c then [] :: r
    else
      match r with
      | [] => [[c]]
      | h :: t => (c :: h) :: t

/-- Python `str.split()` with no argument: split on whitespace runs, dropping
empty pieces. -/
def pySplitWs (s : String) : List String :=
  ((splitChars Char.isWhitespace s.data).filter (· ≠ [])).map String.mk

/-- Contiguous-substring test on character lists (Python's `needle in hay`).
The empty needle is contained in every string, as in Python. -/
def isSubstringOf (needle : List Char) : List Char → Bool
  | [] => needle.isPrefixOf []
  | c :: cs => needle.isPrefixOf (c :: cs) || isSubstringOf needle cs

/-- Python `needle in hay` on strings. -/
def strIn (needle hay : String) : Bool :=
  isSubstringOf needle.data hay.data

/-- The part of `l` before the first occurrence of the separator `sep`
(`area.split(' - ')[0]` in the source, guarded by `' - ' in area`). -/
def beforeSep (sep : List Char) : List Char → List Char
  | [] => []
  | c :: cs => if sep.isPrefixOf (c :: cs) then [] else c :: beforeSep sep cs

/-! ## Duplicate removal preserving first occurrences

The validators of `ContractChangeOutput` (`src/models.py`, `validate_sections`
and `validate_topics`) run the loop

    seen = set(); unique = []
    for x in v:
        if x not in seen: seen.add(x); unique.append(x)

which is embedded as structural recursion carrying the `seen` accumulator. -/

/-- One step of the de-duplication loop with accumulator `seen`. -/
def dedupSeen (seen : List String) : List String → List String
  | [] => []
  | s :: rest => if s ∈ seen then dedupSeen seen rest else s :: dedupSeen (s :: seen) rest

/-- Duplicate removal preserving first-occurrence order (the loop with an
initially empty `seen` set). -/
def removeDuplicates (l : List String) : List String :=
  dedupSeen [] l

theorem mem_dedupSeen (x : String) :
    ∀ (l seen : List String), x ∈ dedupSeen seen l ↔ x ∈ l ∧ x ∉ seen := by
  intro l
  induction l with
  | nil => intro seen; simp [dedupSeen]
  | cons s rest ih =>
    intro seen
    by_cases h : s ∈ seen
    · simp only [dedupSeen, if_pos h, ih]
      constructor
      · rintro ⟨hx, hns⟩
        exact ⟨List.mem_cons_of_mem _ hx, hns⟩
      · rintro ⟨hx, hns⟩
        rcases List.mem_cons.mp hx with rfl | hx
        · exact absurd h hns
        · exact ⟨hx, hns⟩
    · rw [dedupSeen, if_neg h]
      simp only [List.mem_cons, ih]
      by_cases hxs : x = s
      · subst hxs; tauto
      · tauto

theorem nodup_dedupSeen : ∀ (l seen : List String), (dedupSeen seen l).Nodup := by
  intro l
  induction l with
  | nil => intro seen; simp [dedupSeen]
  | cons s rest ih =>
    intro seen
    by_cases h : s ∈ seen
    · simpa [dedupSeen, if_pos h] using ih seen
    · simp only [dedupSeen, if_neg h]
      refine List.nodup_cons.mpr ⟨?_, ih (s :: seen)⟩
      intro hc
      exact ((mem_dedupSeen s rest (s :: seen)).mp hc).2 (List.mem_cons_self s seen)

theorem dedupSeen_sublist : ∀ (l seen : List String), (dedupSeen seen l).Sublist l := by
  intro l
  induction l with
  | nil => intro seen; simp [dedupSeen]
  | cons s rest ih =>
    intro seen
    by_cases h : s ∈ seen
    · simpa [dedupSeen, if_pos h] using (ih seen).cons s
    · simpa [dedupSeen, if_neg h] using (ih (s :: seen)).cons₂ s

theorem dedupSeen_congr :
    ∀ (l seen₁ seen₂ : List String), (∀ a, a ∈ seen₁ ↔ a ∈ seen₂) →
      dedupSeen seen₁ l = dedupSeen seen₂ l := by
  intro l
  induction l with
  | nil => intro seen₁ seen₂ _; rfl
  | cons s rest ih =>
    intro seen₁ seen₂ hiff
    by_cases h : s ∈ seen₁
    · rw [dedupSeen, dedupSeen, if_pos h, if_pos ((hiff s).mp h), ih seen₁ seen₂ hiff]
    · rw [dedupSeen, dedupSeen, if_neg h, if_neg (fun hc => h ((hiff s).mpr hc))]
      rw [ih (s :: seen₁) (s :: seen₂) (by intro a; simp [List.mem_cons, hiff a])]

theorem dedupSeen_cons_filter :
    ∀ (l : List String) (seen : List String) (x : String),
      dedupSeen (x :: seen) l = dedupSeen seen (l.filter (fun a => a ≠ x)) := by
  intro l
  induction l with
  | nil => intro seen x; rfl
  | cons a rest ih =>
    intro seen x
    by_cases hax : a = x
    · subst hax
      rw [dedupSeen, if_pos (List.mem_cons_self a seen)]
      rw [List.filter_cons, if_neg (by simp)]
      exact ih seen a
    · by_cases hs : a ∈ seen
      · rw [dedupSeen, if_pos (List.mem_cons_of_mem _ hs)]
        rw [List.filter_cons, if_pos (by simp [hax])]
        rw [dedupSeen, if_pos hs]
        exact ih seen x
      · have hnot : a ∉ x :: seen := by
          intro hc
          rcases List.mem_cons.mp hc with h1 | h1
          · exact hax h1
          · exact hs h1
        rw [dedupSeen, if_neg hnot]
        rw [List.filter_cons, if_pos (by simp [hax])]
        rw [dedupSeen, if_neg hs]
        have swap : dedupSeen (a :: x :: seen) rest = dedupSeen (x :: a :: seen) rest :=
          dedupSeen_congr rest _ _ (by intro b; simp [List.mem_cons]; tauto)
        rw [swap, ih (a :: seen) x]

/-- The first-occurrence recurrence: the head is kept and every later copy of
it is discarded before de-duplicating the tail. -/
theorem removeDuplicates_cons (x : String) (xs : List String) :
    removeDuplicates (x :: xs) = x :: removeDuplicates (xs.filter (fun a => a ≠ x)) := by
  show dedupSeen [] (x :: xs) = _
  rw [dedupSeen, if_neg (List.not_mem_nil x)]
  rw [dedupSeen_cons_filter xs [] x]
  rfl

theorem mem_removeDuplicates (x : String) (l : List String) :
    x ∈ removeDuplicates l ↔ x ∈ l := by
  rw [removeDuplicates, mem_dedupSeen]
  simp

theorem nodup_removeDuplicates (l : List String) : (removeDuplicates l).Nodup :=
  nodup_dedupSeen l []

theorem removeDuplicates_sublist (l : List String) : (removeDuplicates l).Sublist l :=
  dedupSeen_sublist l []

theorem dedupSeen_of_nodup :
    ∀ (l seen : List String), l.Nodup → (∀ x ∈ l, x ∉ seen) → dedupSeen seen l = l := by
  intro l
  induction l with
  | nil => intro seen _ _; rfl
  | cons s rest ih =>
    intro seen hnd hdisj
    rw [dedupSeen, if_neg (hdisj s (List.mem_cons_self s rest))]
    congr 1
    refine ih (s :: seen) (List.nodup_cons.mp hnd).2 ?_
    intro x hx hc
    rcases List.mem_cons.mp hc with h1 | h1
    · exact (List.nodup_cons.mp hnd).1 (h1 ▸ hx)
    · exact hdisj x (List.mem_cons_of_mem _ hx) h1

theorem removeDuplicates_of_nodup (l : List String) (h : l.Nodup) :
    removeDuplicates l = l :=
  dedupSeen_of_nodup l [] h (by intro x _ hc; exact List.not_mem_nil x hc)

theorem removeDuplicates_idem (l : List String) :
    removeDuplicates (removeDuplicates l) = removeDuplicates l :=
  removeDuplicates_of_nodup _ (nodup_removeDuplicates l)

theorem removeDuplicates_ne_nil (l : List String) (h : l ≠ []) :
    removeDuplicates l ≠ [] := by
  cases l with
  | nil => exact absurd rfl h
  | cons x xs => rw [removeDuplicates_cons]; exact List.cons_ne_nil _ _

/-! ## Properties of the embedded `str.strip` -/

theorem string_length_data (s : String) : s.length = s.data.length := by
  cases s; rfl

theorem stripChars_eq_rdrop (l : List Char) :
    stripChars l = (l.dropWhile Char.isWhitespace).rdropWhile Char.isWhitespace := rfl

theorem dropWhile_stripChars (l : List Char) :
    (stripChars l).dropWhile Char.isWhitespace = stripChars l := by
  have hX : (l.dropWhile Char.isWhitespace).dropWhile Char.isWhitespace
      = l.dropWhile Char.isWhitespace := List.dropWhile_idempotent _ _
  rcases hpre : stripChars l with _ | ⟨c, cs⟩
  · rfl
  · have hprefix : stripChars l <+: l.dropWhile Char.isWhitespace :=
      List.rdropWhile_prefix _ _
    rw [hpre] at hprefix
    obtain ⟨u, hu⟩ := hprefix
    have hl : l.dropWhile Char.isWhitespace = c :: (cs ++ u) := by
      rw [← hu, List.cons_append]
    by_cases hc : Char.isWhitespace c
    · exfalso
      rw [hl, List.dropWhile_cons_of_pos hc] at hX
      have hlen := congrArg List.length hX
      have hle : ((cs ++ u).dropWhile Char.isWhitespace).length ≤ (cs ++ u).length :=
        (List.dropWhile_suffix _).length_le
      simp only [List.length_cons] at hlen
      omega
    · simp [List.dropWhile_cons, hc]

theorem stripChars_idem (l : List Char) :
    stripChars (stripChars l) = stripChars l := by
  show ((stripChars l).dropWhile Char.isWhitespace).rdropWhile Char.isWhitespace = _
  rw [dropWhile_stripChars]
  show List.rdropWhile _ (List.rdropWhile _ _) = _
  rw [List.rdropWhile_idempotent]
  rfl

theorem stripChars_length_le (l : List Char) :
    (stripChars l).length ≤ l.length := by
  have h1 : stripChars l <+: l.dropWhile Char.isWhitespace :=
    List.rdropWhile_prefix _ _
  have h2 : l.dropWhile Char.isWhitespace <:+ l := List.dropWhile_suffix _
  exact le_trans h1.length_le h2.length_le

theorem pyStrip_idem (s : String) : pyStrip (pyStrip s) = pyStrip s := by
  show String.mk (stripChars (stripChars s.data)) = String.mk (stripChars s.data)
  rw [stripChars_idem]

theorem pyStrip_length_le (s : String) : (pyStrip s).length ≤ s.length := by
  rw [string_length_data, string_length_data]
  exact stripChars_length_le s.data

/-! ## Data models (`src/models.py`)

The records are plain structures; pydantic construction with its `Field`
constraints and `field_validator`s is the `Except`-valued function `mk...`.
Pydantic applies a field's own constraints (`min_length`) to the raw input
first and then runs the declared `after`-mode validator on it. -/

/-- A contract document parsed from an image (`ParsedContract`). -/
structure ParsedContract where
  raw_text : String
  document_type : String
  sections_identified : List String
deriving DecidableEq, Repr

/-- Output of Agent 1 (`AgentContext`); `corresponding_sections` is a dict,
modelled as an association list. -/
structure AgentContext where
  document_structure : String
  corresponding_sections : List (String × String)
  identified_change_areas : List String
  context_summary : String
deriving DecidableEq, Repr

/-- Final output of the comparison system (`ContractChangeOutput`). -/
structure ContractChangeOutput where
  sections_changed : List String
  topics_touched : List String
  summary_of_the_change : String
deriving DecidableEq, Repr

/-- Pydantic construction of `ParsedContract`: `raw_text` has `min_length=50`,
and `validate_document_type` lowercases the kind and rejects anything other
than `original` / `amendment`. -/
def mkParsedContract (raw_text document_type : String)
    (sections_identified : List String) : Except String ParsedContract :=
  if raw_text.length < 50 then
    Except.error "raw_text: String should have at least 50 characters"
  else if pyLower document_type = "original" ∨ pyLower document_type = "amendment" then
    Except.ok ⟨raw_text, pyLower document_type, sections_identified⟩
  else
    Except.error "document_type must be 'original' or 'amendment'"

/-- Validator `validate_sections`: every identifier must be non-empty after
stripping, and duplicates are removed preserving first-occurrence order. -/
def validateSections (v : List String) : Except String (List String) :=
  if v.all (fun s => 0 < (pyStrip s).length) then
    Except.ok (removeDuplicates v)
  else
    Except.error "All section identifiers must be non-empty strings"

/-- Validator `validate_topics` (same checks as `validate_sections`). -/
def validateTopics (v : List String) : Except String (List String) :=
  if v.all (fun t => 0 < (pyStrip t).length) then
    Except.ok (removeDuplicates v)
  else
    Except.error "All topics must be non-empty strings"

/-- Validator `validate_summary`: the stripped summary must have at least 100
characters, and the stripped summary is what gets stored. -/
def validateSummary (v : String) : Except String String :=
  if (pyStrip v).length < 100 then
    Except.error "Summary must be at least 100 characters to provide adequate detail"
  else
    Except.ok (pyStrip v)

/-- Pydantic construction of `ContractChangeOutput`: the `Field` constraints
(`min_length=1` on both lists, `min_length=100` on the raw summary) followed
by the three field validators. -/
def mkContractChangeOutput (sections_changed topics_touched : List String)
    (summary_of_the_change : String) : Except String ContractChangeOutput :=
  if sections_changed.length < 1 then
    Except.error "sections_changed: List should have at least 1 item"
  else if topics_touched.length < 1 then
    Except.error "topics_touched: List should have at least 1 item"
  else if summary_of_the_change.length < 100 then
    Except.error "summary_of_the_change: String should have at least 100 characters"
  else do
    let s ← validateSections sections_changed
    let t ← validateTopics topics_touched
    let m ← validateSummary summary_of_the_change
    Except.ok ⟨s, t, m⟩

/-- Inversion of a successful `ContractChangeOutput` construction: the inputs
passed every check and the stored record is the de-duplicated sections and
topics together with the stripped summary. -/
theorem mkContractChangeOutput_ok_inv {s t : List String} {m : String}
    {r : ContractChangeOutput} (h : mkContractChangeOutput s t m = Except.ok r) :
    r = ⟨removeDuplicates s, removeDuplicates t, pyStrip m⟩ ∧
      1 ≤ s.length ∧ 1 ≤ t.length ∧ 100 ≤ m.length ∧
      (∀ x ∈ s, 0 < (pyStrip x).length) ∧ (∀ x ∈ t, 0 < (pyStrip x).length) ∧
      100 ≤ (pyStrip m).length := by
  rw [mkContractChangeOutput] at h
  by_cases h1 : s.length < 1
  · rw [if_pos h1] at h; cases h
  rw [if_neg h1] at h
  by_cases h2 : t.length < 1
  · rw [if_pos h2] at h; cases h
  rw [if_neg h2] at h
  by_cases h3 : m.length < 100
  · rw [if_pos h3] at h; cases h
  rw [if_neg h3] at h
  rw [validateSections, validateTopics, validateSummary] at h
  by_cases h4 : (s.all fun x => decide (0 < (pyStrip x).length)) = true
  case neg =>
    rw [if_neg h4] at h
    simp only [bind, Except.bind] at h
    cases h
  case pos =>
  rw [if_pos h4] at h
  by_cases h5 : (t.all fun x => decide (0 < (pyStrip x).length)) = true
  case neg =>
    rw [if_neg h5] at h
    simp only [bind, Except.bind] at h
    cases h
  case pos =>
  rw [if_pos h5] at h
  by_cases h6 : (pyStrip m).length < 100
  · rw [if_pos h6] at h
    simp only [bind, Except.bind] at h
    cases h
  · rw [if_neg h6] at h
    simp only [bind, Except.bind, Except.ok.injEq] at h
    refine ⟨h.symm, by omega, by omega, by omega, ?_, ?_, by omega⟩
    · intro x hx
      exact of_decide_eq_true (List.all_eq_true.mp h4 x hx)
    · intro x hx
      exact of_decide_eq_true (List.all_eq_true.mp h5 x hx)

/-- Converse: inputs satisfying every check construct successfully. -/
theorem mkContractChangeOutput_ok_of {s t : List String} {m : String}
    (hs1 : 1 ≤ s.length) (ht1 : 1 ≤ t.length) (hm1 : 100 ≤ m.length)
    (hs : ∀ x ∈ s, 0 < (pyStrip x).length) (ht : ∀ x ∈ t, 0 < (pyStrip x).length)
    (hm : 100 ≤ (pyStrip m).length) :
    mkContractChangeOutput s t m
      = Except.ok ⟨removeDuplicates s, removeDuplicates t, pyStrip m⟩ := by
  rw [mkContractChangeOutput, validateSections, validateTopics, validateSummary]
  rw [if_neg (by omega), if_neg (by omega), if_neg (by omega)]
  rw [if_pos (List.all_eq_true.mpr fun x hx => decide_eq_true (hs x hx))]
  rw [if_pos (List.all_eq_true.mpr fun x hx => decide_eq_true (ht x hx))]
  rw [if_neg (by omega)]
  rfl

/-! ## Heterogeneous diagnostic values

Both the guardrails and the evaluator collect diagnostics in Python dicts
whose values have mixed runtime types (ints, floats, bools, lists).  These
dynamically-typed values are embedded as `PyVal`; a dict is an association
list looked up by key.  `len()` applied to a value that has no length raises
a `TypeError`, embedded as `Except.error`. -/

inductive PyVal where
  | vInt : Int → PyVal
  | vRat : ℚ → PyVal
  | vBool : Bool → PyVal
  | vListStr : List String → PyVal
  | vCounts : List (String × Nat) → PyVal
deriving DecidableEq, Repr

abbrev Details := List (String × PyVal)

/-- Python `d.get(key, default)` on an association list. -/
def pyGetOr (d : Details) (k : String) (dflt : PyVal) : PyVal :=
  ((d.find? (fun p => p.1 = k)).map (·.2)).getD dflt

/-- Python `len(v)` on a dynamic value: lists and dicts have a length, but
`len` of an `int`, `float` or `bool` raises a `TypeError`. -/
def pyLen : PyVal → Except String Nat
  | PyVal.vListStr l => Except.ok l.length
  | PyVal.vCounts l => Except.ok l.length
  | _ => Except.error "TypeError: object of type int has no len()"

/-- Numeric view of a dynamic value (Python treats `bool` as an `int`);
comparing a list against a number raises a `TypeError`. -/
def pyToRat : PyVal → Except String ℚ
  | PyVal.vInt n => Except.ok (n : ℚ)
  | PyVal.vRat q => Except.ok q
  | PyVal.vBool b => Except.ok (if b then 1 else 0)
  | _ => Except.error "TypeError: unsupported comparison"

/-- Python `v < q` for a dynamic `v` against a number. -/
def pyLtR (v : PyVal) (q : ℚ) : Except String Bool := do
  let x ← pyToRat v
  return decide (x < q)

/-- Python `v > q` for a dynamic `v` against a number. -/
def pyGtR (v : PyVal) (q : ℚ) : Except String Bool := do
  let x ← pyToRat v
  return decide (q < x)

/-- Python truthiness of a dynamic value. -/
def pyTruthy : PyVal → Bool
  | PyVal.vInt n => n ≠ 0
  | PyVal.vRat q => q ≠ 0
  | PyVal.vBool b => b
  | PyVal.vListStr l => l ≠ []
  | PyVal.vCounts l => l ≠ []

/-- Python `max(a, b)` on numbers (kernel-reducible, unlike the lattice
operations). -/
def pyMax (a b : ℚ) : ℚ := if a ≤ b then b else a

/-- Python `min(a, b)` on numbers. -/
def pyMin (a b : ℚ) : ℚ := if b ≤ a then b else a

/-- Floor of a rational, computed from its normalized fraction. -/
def ratFloor (q : ℚ) : Int := Int.fdiv q.num q.den

/-! ## Guardrails (`src/guardrails.py`)

`ContractGuardrails.validate_input` threads a mutable results dict through a
fixed sequence of checks; the dict is embedded as `InputValidation` and each
check as a function on it.  The embedding covers the `file_path=None` call
shape, so the two file-system checks (which read the disk and open images,
i.e. talk to the outside world) are skipped exactly as the source skips them.
The sensitive-data scan applies compiled `re` patterns via `findall`; the
regex engine is treated as an external collaborator and the scan's outcome
(the per-category nonzero match counts, in pattern order) is a parameter
`sensitiveFound` — it influences only `warnings` and `details`, never
`errors`.  Numeric string formatting such as `f"{x:.1f}"` is rendered with
`toString` of the exact rational; no claim inspects those warning texts. -/

structure ContractGuardrails where
  min_text_length : Nat := 50
  max_text_length : Nat := 50000
deriving DecidableEq, Repr

/-- The configuration built by `ContractGuardrails()` with default arguments. -/
def defaultGuardrails : ContractGuardrails := {}

structure InputValidation where
  is_valid : Bool
  checks_passed : Nat
  total_checks : Nat
  warnings : List String
  errors : List String
  details : Details
deriving DecidableEq, Repr

/-- Check 1 of `validate_input` (`_check_text_length`). -/
def check_text_length (g : ContractGuardrails) (contract : ParsedContract)
    (r0 : InputValidation) : InputValidation :=
  let r := { r0 with total_checks := r0.total_checks + 1 }
  let text_length := contract.raw_text.length
  let r := { r with details := r.details ++ [("text_length", PyVal.vInt text_length)] }
  if text_length < g.min_text_length then
    { r with errors := r.errors ++
        ["Text too short (" ++ toString text_length ++ " chars, minimum "
          ++ toString g.min_text_length ++ ")"] }
  else if text_length > g.max_text_length then
    { r with errors := r.errors ++
        ["Text too long (" ++ toString text_length ++ " chars, maximum "
          ++ toString g.max_text_length ++ ")"] }
  else
    { r with checks_passed := r.checks_passed + 1 }

/-- Check 2 of `validate_input` (`_check_text_quality`): word count, average
word length, alphabetic-character distribution. -/
def check_text_quality (contract : ParsedContract)
    (r0 : InputValidation) : InputValidation :=
  let r := { r0 with total_checks := r0.total_checks + 1 }
  let words := pySplitWs contract.raw_text
  let word_count := words.length
  let r := { r with details := r.details ++ [("word_count", PyVal.vInt word_count)] }
  if word_count < 20 then
    { r with errors := r.errors ++
        ["Too few words (" ++ toString word_count ++ ", expected at least 20)"] }
  else
    let avg_word_length : ℚ := ((words.map String.length).sum : ℚ) / (word_count : ℚ)
    let r := { r with details := r.details ++
        [("avg_word_length", PyVal.vRat avg_word_length)] }
    let r := if avg_word_length < 2 ∨ avg_word_length > 20 then
        { r with warnings := r.warnings ++
            ["Unusual average word length (" ++ toString avg_word_length
              ++ "), possible OCR errors"] }
      else r
    let alpha_chars := (contract.raw_text.data.filter Char.isAlpha).length
    let alpha_frac : ℚ :=
      if contract.raw_text.length ≠ 0 then
        (alpha_chars : ℚ) / (contract.raw_text.length : ℚ)
      else 0
    let r := { r with details := r.details ++ [("alpha_ratio", PyVal.vRat alpha_frac)] }
    let r := if alpha_frac < 1/2 then
        { r with warnings := r.warnings ++
            ["Low alphabetic character ratio (" ++ toString alpha_frac
              ++ "), possible parsing issues"] }
      else r
    { r with checks_passed := r.checks_passed + 1 }

/-- Check 3 of `validate_input` (`_check_sections`): warnings only. -/
def check_sections (contract : ParsedContract)
    (r0 : InputValidation) : InputValidation :=
  let r := { r0 with total_checks := r0.total_checks + 1 }
  let sections := contract.sections_identified
  let r := { r with details := r.details ++
      [("sections_count", PyVal.vInt sections.length)] }
  let r := if sections.length = 0 then
      { r with warnings := r.warnings ++
          ["No sections identified - contract structure may be unclear"] }
    else r
  let r := if sections.length ≠ sections.toFinset.card then
      { r with warnings := r.warnings ++ ["Duplicate sections detected"] }
    else r
  { r with checks_passed := r.checks_passed + 1 }

/-- Check 4 of `validate_input` (`_check_pydantic_model`): re-validate the
model from its own dump. -/
def check_pydantic_model (contract : ParsedContract)
    (r0 : InputValidation) : InputValidation :=
  let r := { r0 with total_checks := r0.total_checks + 1 }
  match mkParsedContract contract.raw_text contract.document_type
      contract.sections_identified with
  | Except.ok _ => { r with checks_passed := r.checks_passed + 1 }
  | Except.error e =>
    { r with errors := r.errors ++ ["Pydantic validation failed: " ++ e] }

/-- The sensitive-data scan (`_check_sensitive_data`): `sensitiveFound`
delivers the regex collaborator's per-category nonzero match counts. -/
def check_sensitive_data (sensitiveFound : String → List (String × Nat))
    (contract : ParsedContract) (r0 : InputValidation) : InputValidation :=
  let found := sensitiveFound contract.raw_text
  if found ≠ [] then
    { r0 with
      details := r0.details ++ [("sensitive_data_detected", PyVal.vCounts found)],
      warnings := r0.warnings ++
        ["Sensitive data detected: " ++ String.intercalate ", " (found.map (·.1))
          ++ ". Ensure proper data handling procedures."] }
  else r0

/-- `ContractGuardrails.validate_input` with `file_path=None`: the fixed check
sequence followed by `is_valid = (errors == [])`. -/
def validate_input (sensitiveFound : String → List (String × Nat))
    (g : ContractGuardrails) (contract : ParsedContract) : InputValidation :=
  let r : InputValidation := ⟨true, 0, 0, [], [], []⟩
  let r := check_text_length g contract r
  let r := check_text_quality contract r
  let r := check_sections contract r
  let r := check_pydantic_model contract r
  let r := check_sensitive_data sensitiveFound contract r
  { r with is_valid := r.errors.isEmpty }

structure OutputValidation where
  is_valid : Bool
  checks_passed : Nat
  total_checks : Nat
  warnings : List String
  errors : List String
deriving DecidableEq, Repr

/-- `ContractGuardrails.validate_output`: empty lists warn, a summary of raw
length below 100 is an error, and ungrounded topics warn of hallucination. -/
def validate_output (output : ContractChangeOutput)
    (original amendment : ParsedContract) : OutputValidation :=
  let r : OutputValidation := ⟨true, 0, 0, [], []⟩
  let r := { r with total_checks := r.total_checks + 1 }
  let r := if output.sections_changed.length = 0 then
      { r with warnings := r.warnings ++ ["No sections changed identified"] }
    else { r with checks_passed := r.checks_passed + 1 }
  let r := { r with total_checks := r.total_checks + 1 }
  let r := if output.topics_touched.length = 0 then
      { r with warnings := r.warnings ++ ["No topics identified"] }
    else { r with checks_passed := r.checks_passed + 1 }
  let r := { r with total_checks := r.total_checks + 1 }
  let r := if output.summary_of_the_change.length < 100 then
      { r with errors := r.errors ++ ["Summary too short"] }
    else { r with checks_passed := r.checks_passed + 1 }
  let r := { r with total_checks := r.total_checks + 1 }
  let combined_text := original.raw_text ++ amendment.raw_text
  let topics_found := (output.topics_touched.filter
      (fun topic => strIn (pyLower topic) (pyLower combined_text))).length
  let r := if topics_found = 0 ∧ output.topics_touched.length > 0 then
      { r with warnings := r.warnings ++
          ["Topics do not appear in source documents - possible hallucination"] }
    else { r with checks_passed := r.checks_passed + 1 }
  { r with is_valid := r.errors.isEmpty }

/-! ## Alignment self-check (`src/agents/extraction_agent.py`)

`validate_against_context` parses a section identifier out of each change
area / changed section (the prefix before the first `" - "` separator, or the
whole string when the separator is absent), builds the two Python sets, and
compares them.  Python sets are embedded as `Finset String`; the returned
`covered/missed/extra` lists (whose order Python leaves unspecified) are kept
as `Finset`s. -/

/-- Section-identifier extraction: `area.split(' - ')[0] if ' - ' in area
else area`. -/
def sectionId (area : String) : String :=
  if strIn " - " area then String.mk (beforeSep " - ".data area.data) else area

/-- The set of section identifiers extracted from a list of strings (the two
`for` loops building `agent1_sections` / `agent2_sections`). -/
def sectionIdSet (l : List String) : Finset String :=
  (l.map sectionId).toFinset

/-- The coverage fraction `len(covered_sections) / len(agent1_sections) if
agent1_sections else 0`. -/
def coverageFrac (changes : ContractChangeOutput) (context : AgentContext) : ℚ :=
  let agent1_sections := sectionIdSet context.identified_change_areas
  let agent2_sections := sectionIdSet changes.sections_changed
  let covered_sections := agent1_sections ∩ agent2_sections
  if agent1_sections = ∅ then 0
  else (covered_sections.card : ℚ) / (agent1_sections.card : ℚ)

/-- Python `round(x, 2)`; the source always rounds `coverage * 100`, which in
the claims under verification is exact, so ties-to-even never arises. -/
def pyRound2 (q : ℚ) : ℚ :=
  ((ratFloor (q * 100 + 1/2) : ℚ)) / 100

structure ContextValidation where
  all_areas_covered : Bool
  no_extra_sections : Bool
  alignment_score : ℚ
  covered_sections : Finset String
  missed_sections : Finset String
  extra_sections : Finset String
deriving DecidableEq

/-- `ExtractionAgent.validate_against_context`. -/
def validate_against_context (changes : ContractChangeOutput)
    (context : AgentContext) : ContextValidation :=
  let agent1_sections := sectionIdSet context.identified_change_areas
  let agent2_sections := sectionIdSet changes.sections_changed
  let covered_sections := agent1_sections ∩ agent2_sections
  let coverage := coverageFrac changes context
  { all_areas_covered := decide ((4/5 : ℚ) ≤ coverage)
    no_extra_sections := decide (agent2_sections ⊆ agent1_sections ∪ {"[NEW]"})
    alignment_score := pyRound2 (coverage * 100)
    covered_sections := covered_sections
    missed_sections := agent1_sections \ agent2_sections
    extra_sections := agent2_sections \ agent1_sections }

/-! ## Evaluator (`src/evaluator.py`)

The rule-based path of `ContractEvaluator.evaluate_output`: five dimension
scores (each a float starting at 100 and multiplicatively penalized, clamped
into [0, 100]), their unweighted mean, a letter grade, and deterministic
recommendations.  Floats are exact rationals.  Each dimension function
returns its score together with the `details` entries it writes, in order;
`evaluate_output` concatenates them into the shared `details` dict.
`_generate_recommendations` indexes `details` dynamically and can raise a
`TypeError`, so it returns `Except String`. -/

structure DimScores where
  completeness : ℚ
  accuracy : ℚ
  clarity : ℚ
  relevance : ℚ
  consistency : ℚ
deriving DecidableEq, Repr

/-- The summary-length penalty factor inside `_evaluate_completeness`:

    if summary_length < 200: score *= 0.7
    elif summary_length < 100: score *= 0.3

translated branch for branch (the `elif` is tested only when
`summary_length >= 200`, exactly as in the source). -/
def summaryLengthPenalty (summary_length : Nat) : ℚ :=
  if summary_length < 200 then 7/10
  else if summary_length < 100 then 3/10
  else 1

/-- `_evaluate_completeness`: coverage of identified change areas, emptiness
penalties, and the summary-length penalty. -/
def evaluate_completeness (changes : ContractChangeOutput)
    (context : AgentContext) : ℚ × Details :=
  let score : ℚ := 100
  let identified_areas := context.identified_change_areas.length
  let sections_changed := changes.sections_changed.length
  let d : Details := [("identified_change_areas", PyVal.vInt identified_areas),
                      ("sections_changed", PyVal.vInt sections_changed)]
  let (score, d) :=
    if sections_changed < identified_areas then
      let coverage : ℚ := (sections_changed : ℚ) / (identified_areas : ℚ)
      (score * coverage, d ++ [("coverage_ratio", PyVal.vRat coverage)])
    else (score, d ++ [("coverage_ratio", PyVal.vRat 1)])
  let score := if sections_changed = 0 then (0 : ℚ) else score
  let score := if changes.topics_touched.length = 0 then score * (1/2) else score
  let summary_length := changes.summary_of_the_change.length
  let score := score * summaryLengthPenalty summary_length
  (pyMax 0 (pyMin 100 score), d)

/-- `re.sub(r'[^\w\s.-]', '', s)`: keep word characters, whitespace, dots and
hyphens. -/
def stripSectionKey (s : String) : String :=
  String.mk (s.data.filter
    (fun c => c.isAlphanum || c = '_' || c.isWhitespace || c = '.' || c = '-'))

/-- `_evaluate_accuracy`: grounding of section references and topic words in
the concatenated lowercased source texts. -/
def evaluate_accuracy (changes : ContractChangeOutput)
    (original_contract amendment_contract : ParsedContract) : ℚ × Details :=
  let combined_text :=
    pyLower original_contract.raw_text ++ " " ++ pyLower amendment_contract.raw_text
  let section_found_count := (changes.sections_changed.filter
      (fun s => strIn (stripSectionKey (pyLower s)) combined_text)).length
  let section_accuracy : ℚ :=
    if changes.sections_changed ≠ [] then
      (section_found_count : ℚ) / (changes.sections_changed.length : ℚ)
    else 0
  let topic_found_count := (changes.topics_touched.filter
      (fun topic => ((pySplitWs (pyLower topic)).filter (fun w => 3 < w.length)).any
        (fun word => strIn word combined_text))).length
  let topic_relevance : ℚ :=
    if changes.topics_touched ≠ [] then
      (topic_found_count : ℚ) / (changes.topics_touched.length : ℚ)
    else 0
  let score := (section_accuracy * (6/10) + topic_relevance * (4/10)) * 100
  (pyMax 0 (pyMin 100 score),
    [("section_accuracy", PyVal.vRat section_accuracy),
     ("topic_relevance", PyVal.vRat topic_relevance)])

/-- The sentence list of `_evaluate_clarity`: `re.split(r'[.!?]+', summary)`
then strip each piece and drop the empty ones. -/
def sentencesOf (summary : String) : List String :=
  ((splitChars (fun c => c = '.' || c = '!' || c = '?') summary.data).map
    (fun l => String.mk (stripChars l))).filter (· ≠ "")

/-- The fixed transition-word list of `_evaluate_clarity`. -/
def structure_indicators : List String :=
  ["first", "second", "third", "finally",
   "additionally", "furthermore", "moreover",
   "however", "therefore", "consequently"]

/-- `_evaluate_clarity`: sentence structure, average sentence length, and
transition words. -/
def evaluate_clarity (changes : ContractChangeOutput) : ℚ × Details :=
  let summary := changes.summary_of_the_change
  let sentences := sentencesOf summary
  let d : Details := [("sentence_count", PyVal.vInt sentences.length)]
  let score : ℚ := if sentences.length = 1 then 100 * (7/10) else 100
  let (score, d) :=
    if sentences ≠ [] then
      let avg_sentence_length : ℚ :=
        ((sentences.map (fun s => (pySplitWs s).length)).sum : ℚ)
          / (sentences.length : ℚ)
      let d := d ++ [("avg_sentence_length", PyVal.vRat avg_sentence_length)]
      if avg_sentence_length < 10 ∨ 50 < avg_sentence_length then
        (score * (8/10), d)
      else (score, d)
    else (score, d)
  let has_structure := structure_indicators.any
    (fun indicator => strIn indicator (pyLower summary))
  let d := d ++ [("has_structure_indicators", PyVal.vBool has_structure)]
  let score := if ¬has_structure ∧ 2 < sentences.length then score * (9/10) else score
  (pyMax 0 (pyMin 100 score), d)

/-- The generic-topic blocklist of `_evaluate_relevance`. -/
def generic_topics : List String :=
  ["general", "miscellaneous", "other", "various",
   "changes", "updates", "modifications"]

/-- `_evaluate_relevance`: generic topics, overly broad sections, and the
topic/section count balance. -/
def evaluate_relevance (changes : ContractChangeOutput) : ℚ × Details :=
  let score : ℚ := 100
  let generic_count := (changes.topics_touched.filter
      (fun topic => generic_topics.any (fun gen => strIn gen (pyLower topic)))).length
  let score :=
    if 0 < generic_count then
      let generic_frac : ℚ := (generic_count : ℚ) / (changes.topics_touched.length : ℚ)
      score * (1 - generic_frac * (3/10))
    else score
  let d : Details := [("generic_topics_count", PyVal.vInt generic_count)]
  let (score, d) :=
    if changes.sections_changed.any
        (fun s => pyLower s = "all sections" || pyLower s = "entire document"
          || pyLower s = "whole contract") then
      (score * (1/2), d ++ [("overly_broad_sections", PyVal.vBool true)])
    else (score, d ++ [("overly_broad_sections", PyVal.vBool false)])
  let score :=
    if changes.sections_changed.length * 2 < changes.topics_touched.length then
      score * (8/10)
    else if (changes.topics_touched.length : ℚ)
        < (changes.sections_changed.length : ℚ) * (1/2) then
      score * (9/10)
    else score
  (pyMax 0 (pyMin 100 score), d)

/-- Counts how many items mention at least one of their words (longer than
three characters, lowercased) as a substring of `target` — the three overlap
counts of `_evaluate_consistency`. -/
def mentionCount (items : List String) (target : String) : Nat :=
  (items.filter (fun item =>
    ((item |> pySplitWs).filter (fun w => 3 < w.length)).any
      (fun word => strIn (pyLower word) target))).length

/-- `_evaluate_consistency`: word overlap between sections/topics and the
summary, and between sections and Agent 1's context summary. -/
def evaluate_consistency (changes : ContractChangeOutput)
    (context : AgentContext) : ℚ × Details :=
  let summary_lower := pyLower changes.summary_of_the_change
  let sections_in_summary := mentionCount changes.sections_changed summary_lower
  let section_summary_consistency : ℚ :=
    if changes.sections_changed ≠ [] then
      (sections_in_summary : ℚ) / (changes.sections_changed.length : ℚ)
    else 0
  let topics_in_summary := mentionCount changes.topics_touched summary_lower
  let topic_summary_consistency : ℚ :=
    if changes.topics_touched ≠ [] then
      (topics_in_summary : ℚ) / (changes.topics_touched.length : ℚ)
    else 0
  let context_lower := pyLower context.context_summary
  let changes_align_with_context := mentionCount changes.sections_changed context_lower
  let context_consistency : ℚ :=
    if changes.sections_changed ≠ [] then
      (changes_align_with_context : ℚ) / (changes.sections_changed.length : ℚ)
    else 0
  let score := (section_summary_consistency * (4/10)
    + topic_summary_consistency * (3/10)
    + context_consistency * (3/10)) * 100
  (pyMax 0 (pyMin 100 score),
    [("section_summary_consistency", PyVal.vRat section_summary_consistency),
     ("topic_summary_consistency", PyVal.vRat topic_summary_consistency),
     ("context_consistency", PyVal.vRat context_consistency)])

/-- `_assign_grade`. -/
def assign_grade (score : ℚ) : String :=
  if 90 ≤ score then "A"
  else if 80 ≤ score then "B"
  else if 70 ≤ score then "C"
  else if 60 ≤ score then "D"
  else "F"

/-- `sum(dimension_scores.values()) / len(dimension_scores)` over the five
dimensions. -/
def overallScore (d : DimScores) : ℚ :=
  (d.completeness + d.accuracy + d.clarity + d.relevance + d.consistency) / 5

/-- `_generate_recommendations`: for each dimension scoring below 70, fixed
advisory strings gated on the diagnostics.  The completeness branch evaluates
`len(details.get('sections_changed', []))`, and `details['sections_changed']`
always holds an `int`, so `pyLen` is where a `TypeError` can surface. -/
def generate_recommendations (scores : DimScores) (details : Details) :
    Except String (List String) := do
  let recommendations : List String := []
  let recommendations ←
    if scores.completeness < 70 then do
      let low_coverage ← pyLtR (pyGetOr details "coverage_ratio" (PyVal.vRat 1)) 1
      let recommendations := if low_coverage then recommendations ++
          ["Ensure all identified change areas are covered in the extraction"]
        else recommendations
      let n ← pyLen (pyGetOr details "sections_changed" (PyVal.vListStr []))
      pure (if n = 0 then recommendations ++
          ["No sections identified - review the extraction logic"]
        else recommendations)
    else pure recommendations
  let recommendations ←
    if scores.accuracy < 70 then do
      let low_sections ← pyLtR (pyGetOr details "section_accuracy" (PyVal.vRat 1)) (7/10)
      let recommendations := if low_sections then recommendations ++
          ["Some sections do not appear in source documents - verify section references"]
        else recommendations
      let low_topics ← pyLtR (pyGetOr details "topic_relevance" (PyVal.vRat 1)) (7/10)
      pure (if low_topics then recommendations ++
          ["Topics may not be well-grounded in document content - improve topic extraction"]
        else recommendations)
    else pure recommendations
  let recommendations ←
    if scores.clarity < 70 then do
      let recommendations :=
        if ¬pyTruthy (pyGetOr details "has_structure_indicators" (PyVal.vBool false))
        then recommendations ++
          ["Add structure indicators (First, Second, Additionally) to improve summary clarity"]
        else recommendations
      let long_sentences ← pyGtR (pyGetOr details "avg_sentence_length" (PyVal.vInt 20)) 50
      pure (if long_sentences then recommendations ++
          ["Break long sentences into shorter, clearer statements"]
        else recommendations)
    else pure recommendations
  let recommendations ←
    if scores.relevance < 70 then do
      let has_generic ← pyGtR (pyGetOr details "generic_topics_count" (PyVal.vInt 0)) 0
      let recommendations := if has_generic then recommendations ++
          ["Replace generic topics with more specific business/legal concepts"]
        else recommendations
      pure (if pyTruthy (pyGetOr details "overly_broad_sections" (PyVal.vBool false))
        then recommendations ++
          ["Identify specific sections rather than broad references"]
        else recommendations)
    else pure recommendations
  let recommendations ←
    if scores.consistency < 70 then do
      let low_sec ← pyLtR (pyGetOr details "section_summary_consistency" (PyVal.vRat 1)) (1/2)
      let recommendations := if low_sec then recommendations ++
          ["Ensure all sections are explicitly mentioned in the summary"]
        else recommendations
      let low_top ← pyLtR (pyGetOr details "topic_summary_consistency" (PyVal.vRat 1)) (1/2)
      pure (if low_top then recommendations ++
          ["Ensure all topics are discussed in the summary"]
        else recommendations)
    else pure recommendations
  return recommendations

structure EvalResult where
  dimension_scores : DimScores
  overall_score : ℚ
  grade : String
  recommendations : List String
  details : Details
deriving DecidableEq, Repr

/-- The tail of `evaluate_output` (lines 78-88 of the source): compute the
overall score from the dimension dict, assign the grade, then generate the
recommendations; a `TypeError` raised there aborts the call. -/
def aggregateResults (scores : DimScores) (details : Details) :
    Except String EvalResult :=
  match generate_recommendations scores details with
  | Except.error e => Except.error e
  | Except.ok recommendations =>
    Except.ok { dimension_scores := scores
                overall_score := overallScore scores
                grade := assign_grade (overallScore scores)
                recommendations := recommendations
                details := details }

/-- `ContractEvaluator.evaluate_output` (the rule-based path): run the five
dimensions in order, then aggregate. -/
def evaluate_output (changes : ContractChangeOutput)
    (original_contract amendment_contract : ParsedContract)
    (context : AgentContext) : Except String EvalResult :=
  let (completeness, d1) := evaluate_completeness changes context
  let (accuracy, d2) := evaluate_accuracy changes original_contract amendment_contract
  let (clarity, d3) := evaluate_clarity changes
  let (relevance, d4) := evaluate_relevance changes
  let (consistency, d5) := evaluate_consistency changes context
  let scores : DimScores := ⟨completeness, accuracy, clarity, relevance, consistency⟩
  let details := d1 ++ d2 ++ d3 ++ d4 ++ d5
  aggregateResults scores details

/-! ## Concrete inputs used by the claim theorems -/

/-- A 90-character summary (below both completeness thresholds). -/
def sum90 : String := String.mk (List.replicate 90 'a')

/-- A 99-character summary. -/
def sum99 : String := String.mk (List.replicate 99 'a')

/-- A summary of exactly 100 non-whitespace characters. -/
def sum100 : String := String.mk (List.replicate 100 'a')

/-- A 120-character summary (valid for construction, still below 200). -/
def sum120 : String := String.mk (List.replicate 120 'a')

def chPenalty : ContractChangeOutput := ⟨["A"], ["T"], sum90⟩

def ctxOneArea : AgentContext := ⟨"d", [("a", "b")], ["X"], "c"⟩

def chLowCompleteness : ContractChangeOutput := ⟨["A"], ["T"], sum120⟩

def ctxTwoAreas : AgentContext := ⟨"d", [("a", "b")], ["X", "Y"], "c"⟩

def origSmall : ParsedContract := ⟨"s", "original", []⟩

def amendSmall : ParsedContract := ⟨"s", "amendment", []⟩

/-! ## Claim C1 -/

/-- Claim C1, counterexample: a summary of length 90 receives the 0.7
multiplier, not the 0.3 multiplier the claim asserts — with one identified
change area, one changed section and one topic the completeness score is
100 × 0.7 = 70, not 100 × 0.3 = 30, because the `< 200` branch of the
if/elif also captures every length below 100. -/
theorem summary_penalty_claim_counterexample :
    summaryLengthPenalty 90 = 7/10 ∧ ¬ summaryLengthPenalty 90 = 3/10 ∧
    (evaluate_completeness chPenalty ctxOneArea).1 = 70 ∧
    ¬ (evaluate_completeness chPenalty ctxOneArea).1 = 30 :=
  ⟨by with_unfolding_all rfl, by with_unfolding_all decide,
   by with_unfolding_all rfl, by with_unfolding_all decide⟩

/-- Claim C1 (amended): the summary-length penalty is an exclusive if/elif
with the < 200 branch checked first, so a summary shorter than 100 characters
receives exactly the 0.7 multiplier — never 0.3 and never both; the < 100
branch is unreachable. -/
theorem summary_penalty_short_summary (n : Nat) (h : n < 100) :
    summaryLengthPenalty n = 7/10 ∧ ¬ summaryLengthPenalty n = 3/10 := by
  constructor
  · unfold summaryLengthPenalty
    rw [if_pos (by omega)]
  · unfold summaryLengthPenalty
    rw [if_pos (by omega)]
    with_unfolding_all decide

/-- Claim C1, witness: the amended statement instantiated at length 90. -/
theorem summary_penalty_short_summary_witness :
    90 < 100 ∧ (summaryLengthPenalty 90 = 7/10 ∧ ¬ summaryLengthPenalty 90 = 3/10) :=
  ⟨by decide, summary_penalty_short_summary 90 (by decide)⟩

/-! ## Claim C2 -/

/-- Claim C2: with two identified change areas but only one changed section
and a summary shorter than 200 characters, the completeness score is
100 × 0.5 × 0.7 = 35 < 70, and `evaluate_output` does not return normally:
`_generate_recommendations` evaluates `len(details.get('sections_changed',
[]))` while `details['sections_changed']` holds the `int` 1, raising a
`TypeError` instead of producing the recommendations list. -/
theorem evaluate_output_type_error_low_completeness :
    (evaluate_completeness chLowCompleteness ctxTwoAreas).1 = 35 ∧
    (evaluate_completeness chLowCompleteness ctxTwoAreas).1 < 70 ∧
    evaluate_output chLowCompleteness origSmall amendSmall ctxTwoAreas
      = Except.error "TypeError: object of type int has no len()" :=
  ⟨by with_unfolding_all rfl, by with_unfolding_all decide, by with_unfolding_all rfl⟩

/-! ## Claim C3 -/

theorem toFinset_removeDuplicates (l : List String) :
    (removeDuplicates l).toFinset = l.toFinset := by
  apply Finset.ext
  intro a
  simp only [List.mem_toFinset]
  exact mem_removeDuplicates a l

/-- Boolean form of "every element is non-empty after stripping". -/
def allNonemptyStrip (l : List String) : Bool :=
  l.all (fun x => 0 < (pyStrip x).length)

/-- Claim C3, counterexample: construction accepts the untrimmed section
identifier `" A "` and stores it as given — the stored element is not equal
to its own whitespace-trimmed form, refuting "every element is a trimmed
string". -/
theorem sections_not_trimmed_counterexample :
    mkContractChangeOutput [" A "] ["T"] sum100
      = Except.ok ⟨[" A "], ["T"], sum100⟩ ∧
    ¬ pyStrip " A " = " A " :=
  ⟨by with_unfolding_all rfl, by decide⟩

/-- Claim C3 (amended): every element of `sections_changed` and
`topics_touched` of a successfully constructed record is non-empty after
trimming (elements themselves are stored untrimmed, exactly as given), and
de-duplication is performed at construction time. -/
theorem sections_topics_nonempty_after_trim (s t : List String) (m : String)
    (r : ContractChangeOutput) (h : mkContractChangeOutput s t m = Except.ok r) :
    allNonemptyStrip r.sections_changed = true ∧
    allNonemptyStrip r.topics_touched = true ∧
    r.sections_changed = removeDuplicates s ∧
    r.topics_touched = removeDuplicates t := by
  obtain ⟨hr, -, -, -, hs, ht, -⟩ := mkContractChangeOutput_ok_inv h
  subst hr
  refine ⟨?_, ?_, rfl, rfl⟩
  · exact List.all_eq_true.mpr fun x hx =>
      decide_eq_true (hs x ((mem_removeDuplicates x s).mp hx))
  · exact List.all_eq_true.mpr fun x hx =>
      decide_eq_true (ht x ((mem_removeDuplicates x t).mp hx))

/-- Claim C3, witness: the amended statement at the record constructed from
`[" A "]`, `["T"]` and a 100-character summary. -/
theorem sections_topics_nonempty_after_trim_witness :
    allNonemptyStrip (ContractChangeOutput.mk [" A "] ["T"] sum100).sections_changed = true ∧
    allNonemptyStrip (ContractChangeOutput.mk [" A "] ["T"] sum100).topics_touched = true ∧
    (ContractChangeOutput.mk [" A "] ["T"] sum100).sections_changed = removeDuplicates [" A "] ∧
    (ContractChangeOutput.mk [" A "] ["T"] sum100).topics_touched = removeDuplicates ["T"] :=
  sections_topics_nonempty_after_trim [" A "] ["T"] sum100 _ (by with_unfolding_all rfl)

/-! ## Claim C4 -/

/-- Claim C4: for every accepted construction the stored lists are duplicate
free, are sublists of the input (order preserved), have exactly the input's
elements, and equal the first-occurrence de-duplication of the input; in
particular `["A", "B", "A", "C"]` is stored as `["A", "B", "C"]`. -/
theorem construction_dedup_first_occurrence (s t : List String) (m : String)
    (r : ContractChangeOutput) (h : mkContractChangeOutput s t m = Except.ok r) :
    r.sections_changed.Nodup ∧ r.topics_touched.Nodup ∧
    r.sections_changed.Sublist s ∧ r.topics_touched.Sublist t ∧
    r.sections_changed.toFinset = s.toFinset ∧
    r.topics_touched.toFinset = t.toFinset ∧
    r.sections_changed = removeDuplicates s ∧
    r.topics_touched = removeDuplicates t ∧
    removeDuplicates ["A", "B", "A", "C"] = ["A", "B", "C"] := by
  obtain ⟨hr, -, -, -, -, -, -⟩ := mkContractChangeOutput_ok_inv h
  subst hr
  exact ⟨nodup_removeDuplicates s, nodup_removeDuplicates t,
    removeDuplicates_sublist s, removeDuplicates_sublist t,
    toFinset_removeDuplicates s, toFinset_removeDuplicates t,
    rfl, rfl, by decide⟩

/-- Claim C4, witness: the construction from `["A", "B", "A", "C"]`. -/
theorem construction_dedup_first_occurrence_witness :
    (ContractChangeOutput.mk ["A", "B", "C"] ["T"] sum100).sections_changed.Nodup ∧
    (ContractChangeOutput.mk ["A", "B", "C"] ["T"] sum100).topics_touched.Nodup ∧
    (ContractChangeOutput.mk ["A", "B", "C"] ["T"] sum100).sections_changed.Sublist
      ["A", "B", "A", "C"] ∧
    (ContractChangeOutput.mk ["A", "B", "C"] ["T"] sum100).topics_touched.Sublist ["T"] ∧
    (ContractChangeOutput.mk ["A", "B", "C"] ["T"] sum100).sections_changed.toFinset
      = (["A", "B", "A", "C"] : List String).toFinset ∧
    (ContractChangeOutput.mk ["A", "B", "C"] ["T"] sum100).topics_touched.toFinset
      = (["T"] : List String).toFinset ∧
    (ContractChangeOutput.mk ["A", "B", "C"] ["T"] sum100).sections_changed
      = removeDuplicates ["A", "B", "A", "C"] ∧
    (ContractChangeOutput.mk ["A", "B", "C"] ["T"] sum100).topics_touched
      = removeDuplicates ["T"] ∧
    removeDuplicates ["A", "B", "A", "C"] = ["A", "B", "C"] :=
  construction_dedup_first_occurrence ["A", "B", "A", "C"] ["T"] sum100 _
    (by with_unfolding_all rfl)

/-! ## Claim C5 -/

/-- Whether pydantic construction succeeded. -/
def isOkE {α : Type} : Except String α → Bool
  | Except.ok _ => true
  | Except.error _ => false

/-- Claim C5: with any valid sections and topics, construction succeeds
exactly when the summary has length at least 100 after trimming; a
99-character summary is rejected and exactly 100 non-whitespace characters
are accepted. -/
theorem summary_min_length_iff (s t : List String) (m : String)
    (hs1 : 1 ≤ s.length) (ht1 : 1 ≤ t.length)
    (hs : allNonemptyStrip s = true) (ht : allNonemptyStrip t = true) :
    (isOkE (mkContractChangeOutput s t m) = true ↔ 100 ≤ (pyStrip m).length) ∧
    isOkE (mkContractChangeOutput ["A"] ["B"] sum99) = false ∧
    isOkE (mkContractChangeOutput ["A"] ["B"] sum100) = true := by
  refine ⟨?_, by with_unfolding_all rfl, by with_unfolding_all rfl⟩
  constructor
  · intro hok
    cases hmk : mkContractChangeOutput s t m with
    | error e => rw [hmk] at hok; exact absurd hok (by simp [isOkE])
    | ok r => exact (mkContractChangeOutput_ok_inv hmk).2.2.2.2.2.2
  · intro hlen
    have hraw : 100 ≤ m.length := le_trans hlen (pyStrip_length_le m)
    rw [mkContractChangeOutput_ok_of hs1 ht1 hraw
      (fun x hx => of_decide_eq_true (List.all_eq_true.mp hs x hx))
      (fun x hx => of_decide_eq_true (List.all_eq_true.mp ht x hx)) hlen]
    rfl

/-- Claim C5, witness: instantiated at `["A"]`, `["B"]` and the 100-character
summary. -/
theorem summary_min_length_iff_witness :
    1 ≤ (["A"] : List String).length ∧ 1 ≤ (["B"] : List String).length ∧
    allNonemptyStrip ["A"] = true ∧ allNonemptyStrip ["B"] = true ∧
    ((isOkE (mkContractChangeOutput ["A"] ["B"] sum100) = true
        ↔ 100 ≤ (pyStrip sum100).length) ∧
      isOkE (mkContractChangeOutput ["A"] ["B"] sum99) = false ∧
      isOkE (mkContractChangeOutput ["A"] ["B"] sum100) = true) :=
  ⟨by decide, by decide, by decide, by decide,
   summary_min_length_iff ["A"] ["B"] sum100 (by decide) (by decide)
     (by decide) (by decide)⟩

/-! ## Claim C9 -/

/-- Claim C9: dumping a successfully constructed record to its fields and
reconstructing yields the same record — the validators are idempotent on
already-validated data. -/
theorem change_result_roundtrip (s t : List String) (m : String)
    (r : ContractChangeOutput) (h : mkContractChangeOutput s t m = Except.ok r) :
    mkContractChangeOutput r.sections_changed r.topics_touched
      r.summary_of_the_change = Except.ok r := by
  obtain ⟨hr, hs1, ht1, -, hs, ht, hm⟩ := mkContractChangeOutput_ok_inv h
  subst hr
  have hsne : removeDuplicates s ≠ [] :=
    removeDuplicates_ne_nil s (by intro hnil; subst hnil; simp at hs1)
  have htne : removeDuplicates t ≠ [] :=
    removeDuplicates_ne_nil t (by intro hnil; subst hnil; simp at ht1)
  have hs1' : 1 ≤ (removeDuplicates s).length := by
    cases hc : removeDuplicates s with
    | nil => exact absurd hc hsne
    | cons a l => simp
  have ht1' : 1 ≤ (removeDuplicates t).length := by
    cases hc : removeDuplicates t with
    | nil => exact absurd hc htne
    | cons a l => simp
  have hs' : ∀ x ∈ removeDuplicates s, 0 < (pyStrip x).length :=
    fun x hx => hs x ((mem_removeDuplicates x s).mp hx)
  have ht' : ∀ x ∈ removeDuplicates t, 0 < (pyStrip x).length :=
    fun x hx => ht x ((mem_removeDuplicates x t).mp hx)
  have hm' : 100 ≤ (pyStrip (pyStrip m)).length := by rw [pyStrip_idem]; exact hm
  show mkContractChangeOutput (removeDuplicates s) (removeDuplicates t) (pyStrip m)
      = Except.ok ⟨removeDuplicates s, removeDuplicates t, pyStrip m⟩
  rw [mkContractChangeOutput_ok_of hs1' ht1' hm hs' ht' hm']
  rw [removeDuplicates_idem, removeDuplicates_idem, pyStrip_idem]

/-- Claim C9, witness: the round trip on the record built from `["A"]`,
`["B"]` and the 100-character summary. -/
theorem change_result_roundtrip_witness :
    mkContractChangeOutput (ContractChangeOutput.mk ["A"] ["B"] sum100).sections_changed
      (ContractChangeOutput.mk ["A"] ["B"] sum100).topics_touched
      (ContractChangeOutput.mk ["A"] ["B"] sum100).summary_of_the_change
      = Except.ok (ContractChangeOutput.mk ["A"] ["B"] sum100) :=
  change_result_roundtrip ["A"] ["B"] sum100 _ (by with_unfolding_all rfl)

/-! ## Claim C10 -/

theorem validate_output_behavior (output : ContractChangeOutput)
    (orig amend : ParsedContract)
    (h1 : output.sections_changed.length ≠ 0)
    (h2 : output.topics_touched.length ≠ 0)
    (h3 : ¬ output.summary_of_the_change.length < 100) :
    (validate_output output orig amend).errors = [] ∧
    (validate_output output orig amend).is_valid = true ∧
    "No sections changed identified" ∉ (validate_output output orig amend).warnings ∧
    "No topics identified" ∉ (validate_output output orig amend).warnings := by
  simp only [validate_output]
  rw [if_neg h1, if_neg h2, if_neg h3]
  by_cases hc : ((output.topics_touched.filter
      (fun topic => strIn (pyLower topic)
        (pyLower (orig.raw_text ++ amend.raw_text)))).length = 0
      ∧ output.topics_touched.length > 0)
  · rw [if_pos hc]
    refine ⟨rfl, rfl, by decide, by decide⟩
  · rw [if_neg hc]
    refine ⟨rfl, rfl, by decide, by decide⟩

/-- Claim C10: on any successfully constructed record, `validate_output`
returns an empty `errors` list and `is_valid = True` for any pair of source
documents; its "Summary too short" error branch and the empty-sections /
empty-topics warning branches are unreachable. -/
theorem validate_output_always_valid (s t : List String) (m : String)
    (r : ContractChangeOutput) (orig amend : ParsedContract)
    (h : mkContractChangeOutput s t m = Except.ok r) :
    (validate_output r orig amend).errors = [] ∧
    (validate_output r orig amend).is_valid = true ∧
    "No sections changed identified" ∉ (validate_output r orig amend).warnings ∧
    "No topics identified" ∉ (validate_output r orig amend).warnings := by
  obtain ⟨hr, hs1, ht1, -, -, -, hm⟩ := mkContractChangeOutput_ok_inv h
  refine validate_output_behavior r orig amend ?_ ?_ ?_
  · rw [hr]
    show (removeDuplicates s).length ≠ 0
    have := removeDuplicates_ne_nil s (by intro hnil; subst hnil; simp at hs1)
    simpa [List.length_eq_zero] using this
  · rw [hr]
    show (removeDuplicates t).length ≠ 0
    have := removeDuplicates_ne_nil t (by intro hnil; subst hnil; simp at ht1)
    simpa [List.length_eq_zero] using this
  · rw [hr]
    show ¬ (pyStrip m).length < 100
    omega

/-- Claim C10, witness: the constructed record from `["A"]`, `["B"]`,
100-character summary, validated against two small documents. -/
theorem validate_output_always_valid_witness :
    (validate_output (ContractChangeOutput.mk ["A"] ["B"] sum100)
        (ParsedContract.mk "x" "original" []) (ParsedContract.mk "y" "amendment" [])).errors = [] ∧
    (validate_output (ContractChangeOutput.mk ["A"] ["B"] sum100)
        (ParsedContract.mk "x" "original" []) (ParsedContract.mk "y" "amendment" [])).is_valid = true ∧
    "No sections changed identified" ∉ (validate_output (ContractChangeOutput.mk ["A"] ["B"] sum100)
        (ParsedContract.mk "x" "original" []) (ParsedContract.mk "y" "amendment" [])).warnings ∧
    "No topics identified" ∉ (validate_output (ContractChangeOutput.mk ["A"] ["B"] sum100)
        (ParsedContract.mk "x" "original" []) (ParsedContract.mk "y" "amendment" [])).warnings :=
  validate_output_always_valid ["A"] ["B"] sum100 _
    (ParsedContract.mk "x" "original" []) (ParsedContract.mk "y" "amendment" [])
    (by with_unfolding_all rfl)

/-! ## Claim C6 -/

def chAligned : ContractChangeOutput :=
  ⟨["Section 2.0 - X", "Section 4.0 - Y"], ["T"], sum120⟩

def ctxAligned : AgentContext :=
  ⟨"d", [("a", "b")], ["Section 2.0 - X", "Section 4.0 - Y"], "c"⟩

/-- Claim C6: the coverage fraction is `|agent1 ∩ agent2| / |agent1|` (0 when
`agent1` is empty) over the section identifiers extracted as the prefix
before the first `" - "` separator (the whole string when absent); with both
sides equal to `["Section 2.0 - X", "Section 4.0 - Y"]` the alignment score
is 100.0 and all areas are covered. -/
theorem validate_against_context_coverage (changes : ContractChangeOutput)
    (context : AgentContext) :
    coverageFrac changes context =
      (if sectionIdSet context.identified_change_areas = ∅ then 0
       else ((sectionIdSet context.identified_change_areas
            ∩ sectionIdSet changes.sections_changed).card : ℚ)
          / ((sectionIdSet context.identified_change_areas).card : ℚ)) ∧
    sectionId "Section 2.0 - X" = "Section 2.0" ∧
    sectionId "Section 4.0 - Y" = "Section 4.0" ∧
    sectionId "Exhibit B" = "Exhibit B" ∧
    (validate_against_context chAligned ctxAligned).alignment_score = 100 ∧
    (validate_against_context chAligned ctxAligned).all_areas_covered = true :=
  ⟨rfl, by decide, by decide, by decide,
   by with_unfolding_all rfl, by with_unfolding_all rfl⟩

/-! ## Claim C7 -/

/-- A document whose text is 30 characters long. -/
def doc30 : ParsedContract := ⟨String.mk (List.replicate 30 'a'), "original", []⟩

/-- Claim C7: for every parsed document (and any outcome of the sensitive
data scan), `validate_input` reports `is_valid = True` exactly when its
`errors` list is empty — warnings never affect validity — and on a document
with 30 characters of text it reports `is_valid = False` with an error
mentioning the 50-character minimum. -/
theorem validate_input_is_valid_iff_no_errors
    (sensitiveFound : String → List (String × Nat)) (g : ContractGuardrails)
    (contract : ParsedContract) :
    ((validate_input sensitiveFound g contract).is_valid = true
      ↔ (validate_input sensitiveFound g contract).errors = []) ∧
    (validate_input (fun _ => []) defaultGuardrails doc30).is_valid = false ∧
    "Text too short (30 chars, minimum 50)"
      ∈ (validate_input (fun _ => []) defaultGuardrails doc30).errors := by
  refine ⟨?_, by decide, by decide⟩
  have key : ∀ R : InputValidation,
      ({ R with is_valid := R.errors.isEmpty }).is_valid = true
        ↔ ({ R with is_valid := R.errors.isEmpty }).errors = [] := by
    intro R
    simp [List.isEmpty_iff]
  exact key _

/-! ## Claim C8 -/

def chEval : ContractChangeOutput := ⟨["s"], ["tttt"], "abcd"⟩

def origEval : ParsedContract := ⟨"s", "original", []⟩

def amendEval : ParsedContract := ⟨"s", "amendment", []⟩

def ctxEval : AgentContext := ⟨"d", [("a", "b")], ["x"], "c"⟩

/-- The evaluation result of `evaluate_output chEval origEval amendEval
ctxEval`, written out for the witness below. -/
def resEval : EvalResult :=
  { dimension_scores := ⟨70, 60, 56, 100, 0⟩
    overall_score := 286/5
    grade := "F"
    recommendations :=
      ["Topics may not be well-grounded in document content - improve topic extraction",
       "Add structure indicators (First, Second, Additionally) to improve summary clarity",
       "Ensure all sections are explicitly mentioned in the summary",
       "Ensure all topics are discussed in the summary"]
    details := [("identified_change_areas", PyVal.vInt 1),
                ("sections_changed", PyVal.vInt 1),
                ("coverage_ratio", PyVal.vRat 1),
                ("section_accuracy", PyVal.vRat 1),
                ("topic_relevance", PyVal.vRat 0),
                ("sentence_count", PyVal.vInt 1),
                ("avg_sentence_length", PyVal.vRat 1),
                ("has_structure_indicators", PyVal.vBool false),
                ("generic_topics_count", PyVal.vInt 0),
                ("overly_broad_sections", PyVal.vBool false),
                ("section_summary_consistency", PyVal.vRat 0),
                ("topic_summary_consistency", PyVal.vRat 0),
                ("context_consistency", PyVal.vRat 0)] }

theorem aggregateResults_ok (scores : DimScores) (details : Details)
    (res : EvalResult) (h : aggregateResults scores details = Except.ok res) :
    res.overall_score = overallScore res.dimension_scores ∧
    res.grade = assign_grade res.overall_score := by
  unfold aggregateResults at h
  split at h
  · cases h
  · cases h
    exact ⟨rfl, rfl⟩

/-- Claim C8: every evaluation result has `overall_score` equal to the
arithmetic mean of the five dimension scores and `grade` derived from
`overall_score` by the fixed thresholds; all-100 scores average to 100 with
grade "A" and all-50 scores average to 50 with grade "F". -/
theorem evaluate_output_mean_and_grade (changes : ContractChangeOutput)
    (original_contract amendment_contract : ParsedContract)
    (context : AgentContext) (res : EvalResult)
    (h : evaluate_output changes original_contract amendment_contract context
      = Except.ok res) :
    res.overall_score = overallScore res.dimension_scores ∧
    res.grade = assign_grade res.overall_score ∧
    overallScore ⟨100, 100, 100, 100, 100⟩ = 100 ∧
    assign_grade (overallScore ⟨100, 100, 100, 100, 100⟩) = "A" ∧
    overallScore ⟨50, 50, 50, 50, 50⟩ = 50 ∧
    assign_grade (overallScore ⟨50, 50, 50, 50, 50⟩) = "F" := by
  obtain ⟨h1, h2⟩ := aggregateResults_ok _ _ _ h
  exact ⟨h1, h2, by with_unfolding_all rfl, by with_unfolding_all rfl,
    by with_unfolding_all rfl, by with_unfolding_all rfl⟩

/-- Claim C8, witness: a complete concrete evaluation run. -/
theorem evaluate_output_mean_and_grade_witness :
    resEval.overall_score = overallScore resEval.dimension_scores ∧
    resEval.grade = assign_grade resEval.overall_score ∧
    overallScore ⟨100, 100, 100, 100, 100⟩ = 100 ∧
    assign_grade (overallScore ⟨100, 100, 100, 100, 100⟩) = "A" ∧
    overallScore ⟨50, 50, 50, 50, 50⟩ = 50 ∧
    assign_grade (overallScore ⟨50, 50, 50, 50, 50⟩) = "F" :=
  evaluate_output_mean_and_grade chEval origEval amendEval ctxEval resEval
    (by with_unfolding_all rfl)
